import Mathlib

/-!
Shallow embedding of the fact-extraction core of the py-xbrl instance parser
(`xbrl/instance.py`, `xbrl/helper/uri_helper.py`).  Python strings are Lean
`String`s, Python `float` values are modelled as exact rationals `ℚ`, Python
`int` as `ℤ`.  Fallible Python code (exceptions, implicit `None` returns) is
modelled with `Except PyErr` and `Option`.

External collaborators (the taxonomy service, the HTTP cache, the lxml tree
parser) are not part of the repository core and enter the model only as
parameters (lookup functions) where the embedded code calls into them.
-/

namespace PyXbrl

/-- Python exception kinds raised by the embedded code paths. -/
inductive PyErr where
  | valueError (msg : String)
  | typeError (msg : String)
  | attributeError (msg : String)
  | indexError
  | keyError (k : String)
  | instanceParseException (msg : String)
  deriving DecidableEq, Repr

instance {ε α : Type} [DecidableEq ε] [DecidableEq α] : DecidableEq (Except ε α) := fun a b =>
  match a, b with
  | .ok x, .ok y => decidable_of_iff (x = y) (by simp)
  | .error x, .error y => decidable_of_iff (x = y) (by simp)
  | .ok _, .error _ => isFalse (by simp)
  | .error _, .ok _ => isFalse (by simp)

/-! ### Python string primitives -/

/-- ASCII whitespace recognised by Python `str.strip` / the regex class `\s`
(unicode whitespace beyond ASCII is not modelled). -/
def isPySpace (c : Char) : Bool :=
  c = ' ' || c = '\t' || c = '\n' || c = '\r' || c = '\x0b' || c = '\x0c'

/-- Python `str.strip()` (ASCII whitespace). -/
def pyStrip (s : String) : String :=
  ⟨((s.data.dropWhile isPySpace).reverse.dropWhile isPySpace).reverse⟩

/-- Python `str.lower()` (ASCII case folding). -/
def pyLower (s : String) : String :=
  ⟨s.data.map Char.toLower⟩

/-- Python `str.zfill(w)`: left-pad with zeros to width `w`, keeping a
leading sign character in front of the padding. -/
def zfill (s : String) (w : Nat) : String :=
  if w ≤ s.length then s
  else
    match s.data with
    | '+' :: rest => ⟨'+' :: List.replicate (w - s.length) '0' ++ rest⟩
    | '-' :: rest => ⟨'-' :: List.replicate (w - s.length) '0' ++ rest⟩
    | l => ⟨List.replicate (w - s.length) '0' ++ l⟩

/-- Decides whether the first character list starts the second one. -/
def listIsPrefix : List Char → List Char → Bool
  | [], _ => true
  | _ :: _, [] => false
  | a :: as, b :: bs => a = b && listIsPrefix as bs

/-- Worker for `countSub`: scans the haystack left to right and skips past a
full match, giving Python's non-overlapping `str.count`.  Fuel-based
structural recursion (one fuel per consumed character) so the kernel can
evaluate it; `fuel = hay.length` always suffices. -/
def countSubGo (needle : List Char) : Nat → List Char → Nat
  | 0, _ => 0
  | _ + 1, [] => 0
  | fuel + 1, c :: rest =>
    if listIsPrefix needle (c :: rest) then
      1 + countSubGo needle fuel (List.drop (needle.length - 1) rest)
    else
      countSubGo needle fuel rest

/-- Python `hay.count(needle)` (non-overlapping occurrences). -/
def countSub (needle hay : String) : Nat :=
  if needle.data.isEmpty then hay.data.length + 1
  else countSubGo needle.data hay.data.length hay.data

/-- Decides whether `needle` occurs as a contiguous substring of the
haystack; Python's `needle in hay`. -/
def subListAux (needle : List Char) : List Char → Bool
  | [] => needle.isEmpty
  | c :: rest => listIsPrefix needle (c :: rest) || subListAux needle rest

/-- Python substring containment `needle in hay`. -/
def strContains (hay needle : String) : Bool :=
  subListAux needle.data hay.data

/-- Python `str.startswith`. -/
def pyStartsWith (s pre : String) : Bool :=
  listIsPrefix pre.data s.data

/-- Python `s.split(sep)` for a one-character separator: splits at every
occurrence, keeping empty pieces (so `"".split(sep) == ['']`). -/
def splitOnChar (sep : Char) : List Char → List (List Char)
  | [] => [[]]
  | c :: rest =>
    let r := splitOnChar sep rest
    if c = sep then [] :: r
    else
      match r with
      | h :: t => (c :: h) :: t
      | [] => [[c]]

/-- Python `s.split(sep)` on strings, one-character separator. -/
def pySplit (s : String) (sep : Char) : List String :=
  (splitOnChar sep s.data).map fun l => ⟨l⟩

/-- Python `sep.join(parts)` for a one-character separator. -/
def pyJoin (sep : Char) (parts : List String) : String :=
  match parts with
  | [] => ""
  | p :: rest => rest.foldl (fun acc q => acc ++ ⟨[sep]⟩ ++ q) p

/-! ### Python numeric primitives -/

/-- Python `abs()` on the exact rational model. -/
def pyAbs (q : ℚ) : ℚ :=
  if q < 0 then -q else q

/-- Python 3 `round()` on the exact rational model: round half to even. -/
def pyRound (q : ℚ) : ℤ :=
  let n : ℤ := ⌊q⌋
  let r : ℚ := q - n
  if r < 1/2 then n
  else if (1:ℚ)/2 < r then n + 1
  else if n % 2 = 0 then n else n + 1

/-- Python `int(s)`: strip whitespace, optional single sign, then a nonempty
run of decimal digits (digit-group underscores are not modelled). -/
def pyInt (s : String) : Except PyErr ℤ :=
  let t := pyStrip s
  let (sgn, digits) :=
    match t.data with
    | '-' :: rest => ((-1 : ℤ), rest)
    | '+' :: rest => ((1 : ℤ), rest)
    | l => ((1 : ℤ), l)
  if digits.isEmpty || !digits.all Char.isDigit then
    .error (.valueError ("invalid literal for int: " ++ s))
  else
    .ok (sgn * digits.foldl (fun acc c => 10 * acc + (c.toNat - '0'.toNat)) 0)

/-- Digits folded to a natural number (helper for `pyFloat`). -/
def digitsToNat (l : List Char) : Nat :=
  l.foldl (fun acc c => 10 * acc + (c.toNat - '0'.toNat)) 0

/-- Python `float(s)` on the exact rational model: strip whitespace, optional
sign, then `ddd`, `ddd.`, `.ddd` or `ddd.ddd`, with an optional decimal
exponent.  The special values `inf`/`nan` have no rational counterpart and
are treated as parse failures (no embedded claim exercises them). -/
def pyFloat (s : String) : Except PyErr ℚ :=
  let err : Except PyErr ℚ :=
    .error (.valueError ("could not convert string to float: " ++ s))
  let t := pyStrip s
  let (sgn, body) :=
    match t.data with
    | '-' :: rest => ((-1 : ℚ), rest)
    | '+' :: rest => ((1 : ℚ), rest)
    | l => ((1 : ℚ), l)
  let (mantissa, expPart) :=
    match splitOnChar 'e' body with
    | [m, e] => (m, some e)
    | _ => (body, none)
  let intPart := mantissa.takeWhile (· ≠ '.')
  let rest := mantissa.dropWhile (· ≠ '.')
  let fracPart := rest.drop 1
  let okMantissa :=
    intPart.all Char.isDigit && fracPart.all Char.isDigit &&
      (!intPart.isEmpty || !fracPart.isEmpty) &&
      (rest.length ≤ 1 + fracPart.length)
  if !okMantissa then err
  else
    let base : ℚ := (digitsToNat intPart : ℚ) +
      (digitsToNat fracPart : ℚ) / ((10 : ℚ) ^ fracPart.length)
    match expPart with
    | none => .ok (sgn * base)
    | some e =>
      let (esgn, edig) :=
        match e with
        | '-' :: r => ((-1 : ℤ), r)
        | '+' :: r => ((1 : ℤ), r)
        | l => ((1 : ℤ), l)
      if edig.isEmpty || !edig.all Char.isDigit then err
      else .ok (sgn * base * (10 : ℚ) ^ (esgn * (digitsToNat edig : ℤ)))

/-! ### The scale / round / sign block

`instance.py` applies the same three lines in `_extract_ixbrl_value`
(lines 503–509) and `_extract_non_fraction_value` (lines 568–574):

    raw_value = raw_value * pow(10, value_scale)
    if abs(raw_value) > 1e6: raw_value = float(round(raw_value))
    if value_sign == '-': raw_value = -raw_value
-/

/-- The scale/round/sign procedure applied to an already parsed numeric
value: multiply by `10 ^ scale`, round to the nearest integer when the
magnitude exceeds `1e6`, then negate when the sign attribute is `'-'`. -/
def applyScaleSign (v : ℚ) (scale : ℤ) (sign : Option String) : ℚ :=
  let scaled : ℚ := v * (10 : ℚ) ^ scale
  let rounded : ℚ := if 1000000 < pyAbs scaled then (pyRound scaled : ℚ) else scaled
  if sign = some "-" then -rounded else rounded

/-- C2: the numeric decoding applies scale, then threshold rounding, then
sign, in that order; below-threshold values pass through unrounded, and the
two documented magnitudes behave as stated. -/
theorem c2_scale_round_sign_order (v : ℚ) (scale : ℤ) (sign : Option String) :
    (pyAbs (v * (10 : ℚ) ^ scale) ≤ 1000000 →
      applyScaleSign v scale sign =
        (if sign = some "-" then -(v * (10 : ℚ) ^ scale) else v * (10 : ℚ) ^ scale)) ∧
    (1000000 < pyAbs (v * (10 : ℚ) ^ scale) →
      applyScaleSign v scale sign =
        (if sign = some "-" then -(pyRound (v * (10 : ℚ) ^ scale) : ℚ)
         else (pyRound (v * (10 : ℚ) ^ scale) : ℚ))) ∧
    applyScaleSign (12345674 / 10) 0 none = 1234567 ∧
    applyScaleSign (9999994 / 10) 0 none = 9999994 / 10 := by
  refine ⟨?_, ?_, ?_, ?_⟩
  · intro h
    simp only [applyScaleSign, not_lt.mpr h, if_false]
  · intro h
    simp only [applyScaleSign, if_pos h]
  · norm_num [applyScaleSign, pyAbs, pyRound]
    simp
  · norm_num [applyScaleSign, pyAbs, pyRound]
    simp

/-- Witness for C2 at a concrete above-threshold and below-threshold input. -/
theorem c2_scale_round_sign_order_witness :
    applyScaleSign (12345674 / 10) 0 (some "-") = -1234567 ∧
    applyScaleSign (9999994 / 10) 0 (some "-") = -(9999994 / 10) := by
  constructor
  · have h := (c2_scale_round_sign_order ((12345674 : ℚ) / 10) 0 (some "-")).2.1
    rw [h (by norm_num [pyAbs])]
    norm_num [pyRound]
  · have h := (c2_scale_round_sign_order ((9999994 : ℚ) / 10) 0 (some "-")).1
    rw [h (by norm_num [pyAbs])]
    norm_num

/-! ### The value normalizer `_normalize_transformed_value`

`time.strptime` field patterns are modelled per CPython's `_strptime`
regexes: `%d` and `%m` accept one or two digits within range, `%Y` exactly
four digits, `%b`/`%B` the English month abbreviations / full names
(matching is on the already lower-cased input).  `time.strptime` does not
cross-validate day against month.
-/

/-- The CPython `%d` field: one or two digits, value 1–31. -/
def parseDayTok (s : String) : Except PyErr Nat :=
  if s.data.all Char.isDigit && 1 ≤ s.length && s.length ≤ 2 &&
      1 ≤ digitsToNat s.data && digitsToNat s.data ≤ 31 then
    .ok (digitsToNat s.data)
  else .error (.valueError "time data does not match format")

/-- The CPython `%m` field: one or two digits, value 1–12. -/
def parseMonthNumTok (s : String) : Except PyErr Nat :=
  if s.data.all Char.isDigit && 1 ≤ s.length && s.length ≤ 2 &&
      1 ≤ digitsToNat s.data && digitsToNat s.data ≤ 12 then
    .ok (digitsToNat s.data)
  else .error (.valueError "time data does not match format")

/-- The CPython `%Y` field: exactly four digits. -/
def parseYearTok (s : String) : Except PyErr Nat :=
  if s.data.all Char.isDigit && s.length = 4 then
    .ok (digitsToNat s.data)
  else .error (.valueError "time data does not match format")

/-- The CPython `%b` field on lower-cased input: an English month
abbreviation, returned as the month number. -/
def parseMonthAbbr (s : String) : Except PyErr Nat :=
  match ["jan", "feb", "mar", "apr", "may", "jun",
         "jul", "aug", "sep", "oct", "nov", "dec"].indexOf? s with
  | some i => .ok (i + 1)
  | none => .error (.valueError "time data does not match format")

/-- The CPython `%B` field on lower-cased input: a full English month name,
returned as the month number. -/
def parseMonthFull (s : String) : Except PyErr Nat :=
  match ["january", "february", "march", "april", "may", "june",
         "july", "august", "september", "october", "november",
         "december"].indexOf? s with
  | some i => .ok (i + 1)
  | none => .error (.valueError "time data does not match format")

/-- Python `seg[i]` on a list of strings, raising `IndexError` when out of
range. -/
def segGet (seg : List String) (i : Nat) : Except PyErr String :=
  match seg.get? i with
  | some s => .ok s
  | none => .error .indexError

/-- The regex `re.sub(r'[,\-\._]', ' ', value)` from the date branch. -/
def dateSepToSpace (s : String) : String :=
  ⟨s.data.map (fun c => if c = ',' || c = '-' || c = '.' || c = '_' then ' ' else c)⟩

/-- Worker for `squeezeWs`, fuel-based structural recursion (one fuel per
consumed character); `fuel = l.length` always suffices. -/
def squeezeWsGo : Nat → List Char → List Char
  | 0, l => l
  | _ + 1, [] => []
  | fuel + 1, c :: rest =>
    if isPySpace c && rest.head?.any isPySpace then
      ' ' :: squeezeWsGo fuel (rest.dropWhile isPySpace)
    else
      c :: squeezeWsGo fuel rest

/-- The regex `re.sub(r'\s{2,}', ' ', value)`: every run of two or more
whitespace characters becomes a single space; a lone whitespace character is
left unchanged. -/
def squeezeWs (l : List Char) : List Char :=
  squeezeWsGo l.length l

/-- Message of the exception raised for a fully unrecognized transform:
the source interpolates `format` — the Python *builtin* `format`, not the
`transform_format` argument — so the message shows the builtin's repr and
never names the unknown keyword. -/
def unknownTransformMsg : String :=
  "Unknown fact transformation <built-in function format>"

/-- Two-digit zero pad of a month/day number rendered with `str(...)`. -/
def pad2 (n : Nat) : String :=
  zfill (toString n) 2

/-- Shallow embedding of `_normalize_transformed_value` (instance.py
lines 577–672).  `Except PyErr (Option String)` models the three Python
outcomes: a returned string, an implicit `None` return (the unmatched
`date*`/`num*` fall-throughs), and a raised exception. -/
def normalizeTransformedValue (value0 transformFormat : String) :
    Except PyErr (Option String) :=
  let value := pyStrip (pyLower value0)
  if transformFormat = "booleanfalse" then .ok (some "false")
  else if transformFormat = "booleantrue" then .ok (some "true")
  else if transformFormat = "zerodash" then .ok (some "0")
  else if transformFormat = "nocontent" then .ok (some "")
  else if pyStartsWith transformFormat "date" then
    let v : String := ⟨squeezeWs (dateSepToSpace value).data⟩
    let seg := pySplit v ' '
    if transformFormat = "datedaymonth" then do
      let s1 ← segGet seg 1
      let s0 ← segGet seg 0
      .ok (some ("--" ++ zfill s1 2 ++ "-" ++ zfill s0 2))
    else if transformFormat = "datedaymonthen" then do
      let s0 ← segGet seg 0
      let s1 ← segGet seg 1
      let d ← parseDayTok s0
      let m ← (if s1.length = 3 then parseMonthAbbr s1 else parseMonthFull s1)
      .ok (some ("--" ++ pad2 m ++ "-" ++ pad2 d))
    else if transformFormat = "datedaymonthyear" then do
      let s2 ← segGet seg 2
      let s1 ← segGet seg 1
      let s0 ← segGet seg 0
      .ok (some (zfill s2 2 ++ "-" ++ zfill s1 2 ++ "-" ++ zfill s0 2))
    else if transformFormat = "datedaymonthyearen" then do
      let s0 ← segGet seg 0
      let s1 ← segGet seg 1
      let s2 ← segGet seg 2
      let d ← parseDayTok s0
      let m ← (if s1.length = 3 then parseMonthAbbr s1 else parseMonthFull s1)
      let y ← parseYearTok s2
      .ok (some (toString y ++ "-" ++ pad2 m ++ "-" ++ pad2 d))
    else if transformFormat = "datemonthday" then do
      let s0 ← segGet seg 0
      let s1 ← segGet seg 1
      .ok (some ("--" ++ zfill s0 2 ++ "-" ++ zfill s1 2))
    else if transformFormat = "datemonthdayen" then do
      let s0 ← segGet seg 0
      let s1 ← segGet seg 1
      let m ← (if s0.length = 3 then parseMonthAbbr s0 else parseMonthFull s0)
      let d ← parseDayTok s1
      .ok (some ("--" ++ pad2 m ++ "-" ++ pad2 d))
    else if transformFormat = "datemonthdayyear" then do
      let s0 ← segGet seg 0
      let s1 ← segGet seg 1
      let s2 ← segGet seg 2
      let m ← parseMonthNumTok s0
      let d ← parseDayTok s1
      let y ← parseYearTok s2
      .ok (some (toString y ++ "-" ++ pad2 m ++ "-" ++ pad2 d))
    else if transformFormat = "datemonthdayyearen" then do
      let s0 ← segGet seg 0
      let s1 ← segGet seg 1
      let s2 ← segGet seg 2
      let m ← (if s0.length ≤ 3 then parseMonthAbbr s0 else parseMonthFull s0)
      let d ← parseDayTok s1
      let y ← parseYearTok s2
      .ok (some (toString y ++ "-" ++ pad2 m ++ "-" ++ pad2 d))
    else if transformFormat = "dateyearmonthday" then do
      let s0 ← segGet seg 0
      let s1 ← segGet seg 1
      let s2 ← segGet seg 2
      let y ← parseYearTok s0
      let m ← parseMonthNumTok s1
      let d ← parseDayTok s2
      .ok (some (toString y ++ "-" ++ pad2 m ++ "-" ++ pad2 d))
    else
      .ok none
  else if pyStartsWith transformFormat "num" then
    if transformFormat = "numcommadecimal" then
      let stripped := value.data.filter (fun c => !(isPySpace c || c = '-' || c = '.'))
      .ok (some ⟨stripped.map (fun c => if c = ',' then '.' else c)⟩)
    else if transformFormat = "numdotdecimal" then
      .ok (some ⟨value.data.filter (fun c => !(isPySpace c || c = '-' || c = ','))⟩)
    else
      .ok none
  else
    .error (.instanceParseException unknownTransformMsg)

/-- Characters removed by the `numdotdecimal` branch. -/
def numDotKeep (c : Char) : Bool :=
  !(isPySpace c || c = '-' || c = ',')

/-- Characters removed by the `numcommadecimal` branch (before the comma
is turned into a dot). -/
def numCommaKeep (c : Char) : Bool :=
  !(isPySpace c || c = '-' || c = '.')

/-- A character killed by the filter predicate never survives filtering. -/
theorem minus_not_mem_filter (l : List Char) (p : Char → Bool) (hp : p '-' = false) :
    '-' ∉ l.filter p := by
  intro hm
  have hpm := List.of_mem_filter hm
  rw [hp] at hpm
  exact Bool.noConfusion hpm

/-- Replacing commas with dots cannot introduce a minus sign. -/
theorem minus_not_mem_commaswap (l : List Char) (hl : '-' ∉ l) :
    '-' ∉ l.map (fun c => if c = ',' then '.' else c) := by
  intro hm
  rcases List.mem_map.mp hm with ⟨c, hc, hrepl⟩
  by_cases h : c = ','
  · rw [h] at hrepl
    simp at hrepl
  · rw [if_neg h] at hrepl
    rw [hrepl] at hc
    exact hl hc

/-- C4: contrary to the claim, an unrecognized transform keyword starting
with `date` or `num` makes the normalizer fall through and return Python
`None` (no exception at all), and a fully unrecognized keyword raises an
exception whose message interpolates the Python builtin `format` instead of
the unknown keyword, so the keyword is never named. -/
theorem c4_unknown_transform_behavior :
    normalizeTransformedValue "x" "datefoo" = .ok none ∧
    normalizeTransformedValue "x" "numfoo" = .ok none ∧
    normalizeTransformedValue "x" "foo" =
      .error (.instanceParseException unknownTransformMsg) ∧
    strContains unknownTransformMsg "foo" = false := by
  decide

/-- C5 counterexample: under `datedaymonthyear` the input `"31 12 2021"`
does not normalize to `"21-12-31"` (the year segment is zero-padded, never
truncated, so the full `"2021"` is kept). -/
theorem c5_counterexample :
    ¬ normalizeTransformedValue "31 12 2021" "datedaymonthyear" =
        .ok (some "21-12-31") := by
  decide

/-- C5 (amended): `"Dec 31"` under `datemonthdayen` gives `"--12-31"`, and
`"31 12 2021"` under `datedaymonthyear` gives `"2021-12-31"`. -/
theorem c5_date_transform_values :
    normalizeTransformedValue "Dec 31" "datemonthdayen" = .ok (some "--12-31") ∧
    normalizeTransformedValue "31 12 2021" "datedaymonthyear" =
      .ok (some "2021-12-31") := by
  decide

/-- C10: `numdotdecimal` removes all whitespace, `'-'` and `','` characters
and `numcommadecimal` removes all whitespace, `'-'` and `'.'` before turning
commas into dots; consequently neither output ever contains a minus sign,
and `"-1,234.5"` loses its sign. -/
theorem c10_numeric_sign_discarded (s : String) :
    normalizeTransformedValue s "numdotdecimal" =
      .ok (some ⟨(pyStrip (pyLower s)).data.filter numDotKeep⟩) ∧
    normalizeTransformedValue s "numcommadecimal" =
      .ok (some ⟨((pyStrip (pyLower s)).data.filter numCommaKeep).map
        (fun c => if c = ',' then '.' else c)⟩) ∧
    (∀ t, normalizeTransformedValue s "numdotdecimal" = .ok (some t) →
      '-' ∉ t.data) ∧
    (∀ t, normalizeTransformedValue s "numcommadecimal" = .ok (some t) →
      '-' ∉ t.data) ∧
    normalizeTransformedValue "-1,234.5" "numdotdecimal" = .ok (some "1234.5") := by
  refine ⟨rfl, rfl, ?_, ?_, by decide⟩
  · intro t ht
    have h : t = ⟨(pyStrip (pyLower s)).data.filter numDotKeep⟩ := by
      have := ht.symm.trans (rfl :
        normalizeTransformedValue s "numdotdecimal" =
          .ok (some ⟨(pyStrip (pyLower s)).data.filter numDotKeep⟩))
      injection this with h1
      injection h1
    rw [h]
    exact minus_not_mem_filter _ numDotKeep (by decide)
  · intro t ht
    have h : t = ⟨((pyStrip (pyLower s)).data.filter numCommaKeep).map
        (fun c => if c = ',' then '.' else c)⟩ := by
      have := ht.symm.trans (rfl :
        normalizeTransformedValue s "numcommadecimal" =
          .ok (some ⟨((pyStrip (pyLower s)).data.filter numCommaKeep).map
            (fun c => if c = ',' then '.' else c)⟩))
      injection this with h1
      injection h1
    rw [h]
    exact minus_not_mem_commaswap _
      (minus_not_mem_filter _ numCommaKeep (by decide))

/-- Witness for C10: the sign of `"-1,234.5"` is discarded by the
`numdotdecimal` transform. -/
theorem c10_numeric_sign_discarded_witness :
    '-' ∉ ("1234.5" : String).data := by
  have h := c10_numeric_sign_discarded "-1,234.5"
  exact h.2.2.1 "1234.5" h.2.2.2.2

/-! ### The `decimals` attribute (instance.py lines 347–348 and 437–438) -/

/-- Shared tail of both `decimals` sites: a stripped text equal to `inf`
case-insensitively means "exact" (stored as `none`), anything else is parsed
with Python `int`. -/
def decimalsFromText (t : String) : Except PyErr (Option Int) :=
  if pyLower t = "inf" then .ok none
  else (pyInt t).map some

/-- Shallow embedding of the `parse_xbrl` decimals handling: the attribute
is always present there (`fact_elem.attrib['decimals']`), stripped, then
interpreted by `decimalsFromText`. -/
def parseDecimalsAttr (attr : String) : Except PyErr (Option Int) :=
  decimalsFromText (pyStrip attr)

/-- Shallow embedding of the `parse_ixbrl` decimals handling: a missing
attribute falls back to the literal `'0'` instead of failing. -/
def parseDecimalsIxbrl (attr : Option String) : Except PyErr (Option Int) :=
  let t := match attr with
    | some a => pyStrip a
    | none => "0"
  decimalsFromText t

/-- C6: a trimmed case-insensitive `INF` decimals value is stored as absent
(`none`) in both modes, any other value is stored as its integer parse
(`"-3"` gives `-3`), and in iXBRL mode only a missing attribute becomes the
integer `0`. -/
theorem c6_decimals_handling (s : String) :
    (pyLower (pyStrip s) = "inf" →
      parseDecimalsAttr s = .ok none ∧ parseDecimalsIxbrl (some s) = .ok none) ∧
    (pyLower (pyStrip s) ≠ "inf" →
      parseDecimalsAttr s = (pyInt (pyStrip s)).map some) ∧
    parseDecimalsAttr "-3" = .ok (some (-3)) ∧
    parseDecimalsIxbrl (some "INF") = .ok none ∧
    parseDecimalsIxbrl none = .ok (some 0) := by
  refine ⟨?_, ?_, by decide, by decide, by decide⟩
  · intro h
    constructor
    · simp [parseDecimalsAttr, decimalsFromText, h]
    · simp [parseDecimalsIxbrl, decimalsFromText, h]
  · intro h
    simp [parseDecimalsAttr, decimalsFromText, h]

/-- Witness for C6 at concrete inputs: a mixed-case padded `INF` and a plain
integer value. -/
theorem c6_decimals_handling_witness :
    parseDecimalsAttr " InF " = .ok none ∧
    parseDecimalsAttr "-3" = .ok (some (-3)) := by
  constructor
  · exact ((c6_decimals_handling " InF ").1 (by decide)).1
  · exact (c6_decimals_handling "-3").2.2.1

/-! ### `resolve_uri` (uri_helper.py lines 11–58)

Only the network-address path (`dir_uri` starting with `http`) is modelled;
the two early-return branches for local filesystem paths delegate to
`os.path.normpath`/`os.path.dirname`, whose OS semantics are outside this
model, and are mapped to `none` here.  No claim exercises them. -/

/-- Python `str.endswith`. -/
def pyEndsWith (s suffixStr : String) : Bool :=
  listIsPrefix suffixStr.data.reverse s.data.reverse

/-- One pass of the inner loop of `resolve_uri`: delete the first path part
that is directly followed by a `'..'` part, together with that `'..'`. -/
def removeDotDotOnce : List String → List String
  | [] => []
  | [x] => [x]
  | x :: y :: rest =>
    if y = ".." then rest
    else x :: removeDotDotOnce (y :: rest)

/-- The outer loop of `resolve_uri`: the inner pass runs once per occurrence
of the substring `'/..'` counted on the joined uri before any deletion. -/
def collapseDotDots : Nat → List String → List String
  | 0, l => l
  | n + 1, l => collapseDotDots n (removeDotDotOnce l)

/-- Python `dir_uri.split('/')[-1]` (the split list is never empty). -/
def lastSlashPart (s : String) : String :=
  match (pySplit s '/').getLast? with
  | some x => x
  | none => ""

/-- Shallow embedding of `resolve_uri`. -/
def resolve_uri (dir_uri relative_uri : String) : Option String :=
  if pyStartsWith relative_uri "http" then some relative_uri
  else
    let r1 := if pyStartsWith relative_uri "/" then (⟨relative_uri.data.drop 1⟩ : String)
              else relative_uri
    let r2 := if pyStartsWith r1 "./" then (⟨r1.data.drop 2⟩ : String) else r1
    if !pyStartsWith dir_uri "http" then
      none
    else
      let d1 := if strContains (lastSlashPart dir_uri) "." then
                  pyJoin '/' (pySplit dir_uri '/').dropLast
                else dir_uri
      let d2 := if !pyEndsWith d1 "/" then d1 ++ "/" else d1
      let absolute := d2 ++ r2
      let parts := pySplit absolute '/'
      some (pyJoin '/' (collapseDotDots (countSub "/.." absolute) parts))

/-- C7 counterexample: with base `"http://abc.org/a/b/c"` (whose last
segment `c` contains no dot, so nothing is trimmed) and relative
`"/../lab.xml"`, the function does not return `"http://abc.org/a/lab.xml"`. -/
theorem c7_counterexample :
    ¬ resolve_uri "http://abc.org/a/b/c" "/../lab.xml" =
        some "http://abc.org/a/lab.xml" := by
  decide

/-- C7 (amended): the `'..'` collapses against the untrimmed `c` segment,
giving `"http://abc.org/a/b/lab.xml"`. -/
theorem c7_resolve_uri_value :
    resolve_uri "http://abc.org/a/b/c" "/../lab.xml" =
      some "http://abc.org/a/b/lab.xml" := by
  decide

/-! ### Context resolution (`_parse_context_elements`, instance.py 675–738)

A context element is modelled by the pieces the code reads from it.  Each
sub-element lookup (`context_elem.find(...)`) yields `Option (Option String)`:
the outer `Option` is element presence, the inner one the element's `.text`
(which lxml reports as `None` for an empty element).  The `id` attribute is
taken as given.  The dimensional-segment block (lines 708–735) only appends
`ExplicitMember`s resolved through the external taxonomy service and never
changes which context kind is built; it is not modelled here and no claim
depends on it. -/

/-- Calendar date produced by `datetime.strptime(..., '%Y-%m-%d').date()`. -/
structure PyDate where
  year : Nat
  month : Nat
  day : Nat
  deriving DecidableEq, Repr

/-- Day count used by `datetime`'s validation. -/
def daysInMonth (y m : Nat) : Nat :=
  if m = 2 then
    if y % 4 = 0 && (y % 100 ≠ 0 || y % 400 = 0) then 29 else 28
  else if m = 4 || m = 6 || m = 9 || m = 11 then 30
  else 31

/-- Python `datetime.strptime(s, '%Y-%m-%d')`: four-digit year, one or two
digit month and day, dashes literal, full-string match, and `datetime`
validates the day against the month and year. -/
def parseDateYMD (s : String) : Except PyErr PyDate :=
  match pySplit s '-' with
  | [ys, ms, ds] =>
    if ys.data.all Char.isDigit && ys.length = 4 &&
        ms.data.all Char.isDigit && 1 ≤ ms.length && ms.length ≤ 2 &&
        1 ≤ digitsToNat ms.data && digitsToNat ms.data ≤ 12 &&
        ds.data.all Char.isDigit && 1 ≤ ds.length && ds.length ≤ 2 &&
        1 ≤ digitsToNat ds.data &&
        digitsToNat ds.data ≤ daysInMonth (digitsToNat ys.data) (digitsToNat ms.data) then
      .ok ⟨digitsToNat ys.data, digitsToNat ms.data, digitsToNat ds.data⟩
    else .error (.valueError "time data does not match format Y-m-d")
  | _ => .error (.valueError "time data does not match format Y-m-d")

/-- The pieces `_parse_context_elements` reads from one `xbrli:context`
element. -/
structure CtxElem where
  id : String
  entityText : Option (Option String)
  instant : Option (Option String)
  startDate : Option (Option String)
  endDate : Option (Option String)
  forever : Bool
  deriving DecidableEq, Repr

/-- The three context classes (their segment lists are not modelled). -/
inductive Ctx where
  | instantContext (xmlId entity : String) (instantDate : PyDate)
  | timeFrameContext (xmlId entity : String) (startDate endDate : PyDate)
  | foreverContext (xmlId entity : String)
  deriving DecidableEq, Repr

/-- Accessing `.text` on a `find` result: a missing element means
`None.text` and a present element with empty body means `None.strip()`,
both `AttributeError`s. -/
def elemTextOrErr : Option (Option String) → Except PyErr String
  | none => .error (.attributeError "NoneType object has no attribute text")
  | some none => .error (.attributeError "NoneType object has no attribute strip")
  | some (some t) => .ok t

/-- Entity extraction `str(find('entity/identifier').text).strip()`:
a missing identifier element raises, while a present one with `None` text
becomes the literal string `"None"` via `str(...)`. -/
def getEntity : Option (Option String) → Except PyErr String
  | none => .error (.attributeError "NoneType object has no attribute text")
  | some t => .ok (pyStrip (match t with | none => "None" | some s => s))

/-- Shallow embedding of the per-element body of `_parse_context_elements`:
entity first, then the branch chain `instant` / `forever` / time-frame. -/
def parseContextElem (e : CtxElem) : Except PyErr Ctx := do
  let entity ← getEntity e.entityText
  match e.instant with
  | some txt => do
    let t ← elemTextOrErr (some txt)
    let d ← parseDateYMD (pyStrip t)
    pure (.instantContext e.id entity d)
  | none =>
    if e.forever then
      pure (.foreverContext e.id entity)
    else do
      let st ← elemTextOrErr e.startDate
      let sd ← parseDateYMD (pyStrip st)
      let et ← elemTextOrErr e.endDate
      let ed ← parseDateYMD (pyStrip et)
      pure (.timeFrameContext e.id entity sd ed)

/-- Python `context_dict[context_id] = context`: insertion-ordered map
update, overwriting in place. -/
def dictSet (k : String) (v : Ctx) : List (String × Ctx) → List (String × Ctx)
  | [] => [(k, v)]
  | (k0, v0) :: rest => if k0 = k then (k0, v) :: rest else (k0, v0) :: dictSet k v rest

/-- Shallow embedding of the `_parse_context_elements` loop (segments
omitted, see the section comment): any per-element exception aborts the
whole parse. -/
def parseContextElements (elems : List CtxElem) : Except PyErr (List (String × Ctx)) :=
  elems.foldlM (fun acc e => do
    let c ← parseContextElem e
    pure (dictSet e.id c acc)) []

/-- Number of recognizable period markers present, in the claim's sense:
an instant element, a start+end pair, or a forever element. -/
def countPeriodMarkers (e : CtxElem) : Nat :=
  (if e.instant.isSome then 1 else 0) +
    (if e.startDate.isSome && e.endDate.isSome then 1 else 0) +
    (if e.forever then 1 else 0)

/-- Context element carrying all three period markers at once. -/
def ctxAllMarkers : CtxElem :=
  { id := "c1", entityText := some (some "0001"),
    instant := some (some "2020-01-01"),
    startDate := some (some "2020-01-01"), endDate := some (some "2020-12-31"),
    forever := true }

/-- C1 counterexample: a context element with all three period markers is
resolved without any error — the parser silently builds an instant context
and stores it, instead of failing with a malformed-document error. -/
theorem c1_counterexample :
    countPeriodMarkers ctxAllMarkers = 3 ∧
    parseContextElements [ctxAllMarkers] =
      .ok [("c1", .instantContext "c1" "0001" ⟨2020, 1, 1⟩)] := by
  constructor
  · decide
  · decide

/-- C1 (amended): the period markers are recognized by priority, instant
first, then forever, with everything else treated as a time frame; extra
markers are silently ignored, and with zero markers the resolution fails
with an `AttributeError` (a `None` dereference), not a malformed-document
error. -/
theorem c1_period_marker_priority (e : CtxElem) :
    (e.instant.isSome = true →
      parseContextElem e =
        parseContextElem { e with startDate := none, endDate := none, forever := false }) ∧
    (e.instant = none → e.forever = true →
      parseContextElem e =
        parseContextElem { e with startDate := none, endDate := none }) ∧
    (e.instant = none → e.forever = false → e.startDate = none →
      ∃ msg, parseContextElem e = .error (.attributeError msg)) := by
  rcases e with ⟨id, ent, inst, sd, ed, fv⟩
  refine ⟨?_, ?_, ?_⟩
  · intro h
    cases inst with
    | none => simp at h
    | some txt => rfl
  · intro h1 h2
    cases inst with
    | some txt => exact absurd h1 (by simp)
    | none =>
      cases fv
      · simp at h2
      · rfl
  · intro h1 h2 h3
    cases inst with
    | some txt => exact absurd h1 (by simp)
    | none =>
      cases fv
      · cases h3
        cases ent with
        | none => exact ⟨_, rfl⟩
        | some t => exact ⟨_, rfl⟩
      · simp at h2

/-- Witness for C1 (amended) at concrete elements: the all-marker element
parses identically with the extra markers removed, and a marker-free
element raises an `AttributeError`. -/
theorem c1_period_marker_priority_witness :
    parseContextElem ctxAllMarkers =
      parseContextElem { ctxAllMarkers with
        startDate := none, endDate := none, forever := false } ∧
    (∃ msg, parseContextElem
        ⟨"c2", some (some "0001"), none, none, none, false⟩ =
      .error (.attributeError msg)) := by
  constructor
  · exact (c1_period_marker_priority ctxAllMarkers).1 (by decide)
  · exact (c1_period_marker_priority _).2.2 rfl rfl rfl

/-! ### iXBRL fact extraction (`parse_ixbrl` and helpers, instance.py 373–574)

The external collaborators appear as lookup parameters: `R` for the
prefix/local-name to `Concept` resolution (namespace map plus taxonomy
service plus common-taxonomy fallback, instance.py 423–429),
`C` for `context_dir[...]`, `U` for `unit_dir[...]`.  The in-place
namespace-map update `_update_ns_map` only feeds `R` and has no other
observable effect in this model. -/

/-- The concept object handed back by the external taxonomy service; only
its identity matters to the extraction code. -/
structure Concept where
  name : String
  deriving DecidableEq, Repr

/-- The two unit classes built by `_parse_unit_elements`. -/
inductive XUnit where
  | simpleUnit (unitId unitMeasure : String)
  | divideUnit (unitId numerator denominator : String)
  deriving DecidableEq, Repr

/-- The two fact classes built by both parse loops. -/
inductive XFact where
  | numericFact (concept : Concept) (context : Ctx) (value : Option ℚ)
      (unit : XUnit) (decimals : Option Int)
  | textFact (concept : Concept) (context : Ctx) (value : String)
  deriving DecidableEq, Repr

/-- Discriminates the two fact classes. -/
def isNumericFact : XFact → Bool
  | .numericFact _ _ _ _ _ => true
  | .textFact _ _ _ => false

/-- The two inline fact tags selected by the two `findall` queries. -/
inductive IxTag where
  | nonFraction
  | nonNumeric
  deriving DecidableEq, Repr

mutual
/-- A descendant element inside an inline fact: own text, optional
`format` attribute, child elements. -/
inductive IxNode where
  | mk (text : Option String) (fmt : Option String) (children : IxNodes)

/-- Children of an `IxNode`, as a chain (keeps all recursion structural). -/
inductive IxNodes where
  | nil
  | cons (head : IxNode) (tail : IxNodes)
end

/-- Python `f.split(':')[1]`; in the embedded code this is only reached
under a `startswith('ixt:')` guard, so index 1 always exists. -/
def splitColonSecond (f : String) : String :=
  match (pySplit f ':').get? 1 with
  | some s => s
  | none => ""

mutual
/-- Shallow embedding of `_extract_non_numeric_value` (lines 514–538):
own text concatenated with the recursively extracted children, then the
optional `ixt:` format transform.  `ok none` is Python returning `None`
(the normalizer fall-through). -/
def extractNonNumericValue : IxNode → Except PyErr (Option String)
  | .mk text fmt children =>
    match concatIxNodes children with
    | .error e => .error e
    | .ok childText =>
      let fv := (match text with | none => "" | some t => t) ++ childText
      match fmt with
      | some f =>
        if pyStartsWith f "ixt:" then
          normalizeTransformedValue fv (splitColonSecond f)
        else
          .ok (some fv)
      | none => .ok (some fv)

/-- The `fact_value += _extract_non_numeric_value(children)` loop: a child
returning Python `None` makes the `+=` raise a `TypeError`. -/
def concatIxNodes : IxNodes → Except PyErr String
  | .nil => .ok ""
  | .cons c rest =>
    match extractNonNumericValue c with
    | .error e => .error e
    | .ok none => .error (.typeError "can only concatenate str to str")
    | .ok (some s) =>
      match concatIxNodes rest with
      | .error e => .error e
      | .ok r => .ok (s ++ r)
end

/-- The pieces `parse_ixbrl` and `_extract_non_fraction_value` read from
one inline fact element.  `nsMapAttr` is the XML attribute literally named
`ns_map` looked up on line 547: this fork's `parse_file` attaches no such
attribute to any element (it returns the prefix map as a separate tuple
component), so on every element lxml produces this field is `none`; it is
kept as an `Option` so the lookup's failure stays explicit. -/
structure IxFactElem where
  tag : IxTag
  name : Option String
  contextRef : Option String
  unitRef : Option String
  decimals : Option String
  nsMapAttr : Option String
  text : Option String
  fmt : Option String
  scaleAttr : Option String
  signAttr : Option String
  children : IxNodes

/-- Python `attrib[key]`: `KeyError` when the attribute is missing. -/
def keyOrErr (v : Option String) (key : String) : Except PyErr String :=
  match v with
  | some s => .ok s
  | none => .error (.keyError key)

/-- Python `value[key]` where `value` is a string (every lxml attribute
value is) and `key` is a string: always a `TypeError`. -/
def pyStrIndexStr (_s _key : String) : Except PyErr String :=
  .error (.typeError "string indices must be integers")

/-- Python `s.split(':')` unpacked into exactly two names. -/
def splitPrefixName (s : String) : Except PyErr (String × String) :=
  match pySplit s ':' with
  | [a, b] => .ok (a, b)
  | _ => .error (.valueError "unpack")

/-- Lines 548–574 of `_extract_non_fraction_value`, parameterized by the
outcome of the line-548 nil test: the `None` short-circuit, then text
concatenation, scale parse, optional format transform, float parse, and
the scale/round/sign block.  Unreachable in the source: the attribute-name
construction on line 547 always raises first (see
`extractNonFractionValue`), so the nil-test outcome can never be
computed. -/
def extractNonFractionValueRest (e : IxFactElem) (isNil : Bool) :
    Except PyErr (Option ℚ) :=
  if isNil then .ok none
  else do
    let childText ← concatIxNodes e.children
    let fv := (match e.text with | none => "" | some t => t) ++ childText
    let scale ← (match e.scaleAttr with | some a => pyInt a | none => pure 0)
    let fv2 ← (match e.fmt with
      | some f =>
        if pyStartsWith f "ixt:" then
          normalizeTransformedValue fv (splitColonSecond f)
        else pure (some fv)
      | none => pure (some fv))
    let s ← (match fv2 with
      | some s => pure s
      | none => Except.error (.typeError "float argument must not be NoneType"))
    let x ← pyFloat s
    pure (some (applyScaleSign x scale e.signAttr))

/-- Shallow embedding of `_extract_non_fraction_value` (lines 541–574).
Line 547 builds the nil-attribute name from
`fact_elem.attrib['ns_map']['xsi']`: the element's XML-attribute map has no
key `ns_map` (KeyError on every real element), and even if a document
carried such an attribute its value would be a string, so the `['xsi']`
index raises `TypeError`.  Either way the function raises before the nil
test on line 548; the continuation is passed the (never computed) nil
outcome as `false`, a choice that is observationally irrelevant behind the
failing lookups. -/
def extractNonFractionValue (e : IxFactElem) : Except PyErr (Option ℚ) := do
  let nsm ← keyOrErr e.nsMapAttr "ns_map"
  let _xsi ← pyStrIndexStr nsm "xsi"
  extractNonFractionValueRest e false

/-- The `ix:nonNumeric` value as stored on the `TextFact`:
`_extract_non_numeric_value` on the element itself, then `str(fact_value)`
(so a Python `None` result is stored as the string `"None"`). -/
def extractNonNumericTop (e : IxFactElem) : Except PyErr String := do
  let r ← extractNonNumericValue (.mk e.text e.fmt e.children)
  pure (match r with | some s => s | none => "None")

/-- Shallow embedding of the per-element body of the `parse_ixbrl` fact
loop (lines 420–443): name resolution, context lookup, then the tag
dispatch building one fact. -/
def processIxFact (R : String → String → Except PyErr Concept)
    (C : String → Except PyErr Ctx) (U : String → Except PyErr XUnit)
    (e : IxFactElem) : Except PyErr (List XFact) := do
  let nm ← keyOrErr e.name "name"
  let pn ← splitPrefixName nm
  let concept ← R pn.1 pn.2
  let cref ← keyOrErr e.contextRef "contextRef"
  let context ← C cref
  match e.tag with
  | .nonFraction => do
    let v ← extractNonFractionValue e
    let uref ← keyOrErr e.unitRef "unitRef"
    let unit ← U uref
    let dec ← parseDecimalsIxbrl e.decimals
    pure [XFact.numericFact concept context v unit dec]
  | .nonNumeric => do
    let v ← extractNonNumericTop e
    pure [XFact.textFact concept context v]

/-- One step of the `facts.append(...)` accumulation. -/
def ixbrlFoldBody (R : String → String → Except PyErr Concept)
    (C : String → Except PyErr Ctx) (U : String → Except PyErr XUnit)
    (acc : List XFact) (e : IxFactElem) : Except PyErr (List XFact) := do
  let fs ← processIxFact R C U e
  pure (acc ++ fs)

/-- Shallow embedding of the `parse_ixbrl` fact loop: the element list is
the `findall('.//ix:nonFraction')` results followed by the
`findall('.//ix:nonNumeric')` results, each in document order. -/
def parseIxbrlFacts (R : String → String → Except PyErr Concept)
    (C : String → Except PyErr Ctx) (U : String → Except PyErr XUnit)
    (doc : List IxFactElem) : Except PyErr (List XFact) :=
  (doc.filter (fun e => e.tag == IxTag.nonFraction) ++
    doc.filter (fun e => e.tag == IxTag.nonNumeric)).foldlM (ixbrlFoldBody R C U) []

/-! ### Lemmas about `Except` and the fact-loop fold -/

/-- A monadic bind in `Except` succeeds exactly when both stages do. -/
theorem exceptBindOkIff {ε α β : Type} (x : Except ε α) (f : α → Except ε β) (b : β) :
    (x >>= f) = .ok b ↔ ∃ a, x = .ok a ∧ f a = .ok b := by
  cases x with
  | error e => simp [Bind.bind, Except.bind]
  | ok a => simp [Bind.bind, Except.bind]

/-- Unfolds `pure` for `Except`. -/
theorem exceptPureOk {ε α : Type} (a : α) : (pure a : Except ε α) = .ok a := rfl

/-- Every fact produced by one loop step has the kind dictated by the
element's tag. -/
theorem processIxFact_kind (R : String → String → Except PyErr Concept)
    (C : String → Except PyErr Ctx) (U : String → Except PyErr XUnit)
    (e : IxFactElem) (fs : List XFact) (h : processIxFact R C U e = .ok fs) :
    ∀ f ∈ fs, isNumericFact f = (e.tag == IxTag.nonFraction) := by
  rcases e with ⟨tag, nm, cref, uref, dec, nil0, txt, fmt, sc, sg, ch⟩
  cases tag with
  | nonFraction =>
    simp only [processIxFact, exceptBindOkIff, exceptPureOk] at h
    obtain ⟨a1, _, a2, _, a3, _, a4, _, a5, _, a6, _, a7, _, a8, _, a9, _, hfs⟩ := h
    injection hfs with hfs0
    intro f hf
    rw [← hfs0] at hf
    simp only [List.mem_singleton] at hf
    rw [hf]
    rfl
  | nonNumeric =>
    simp only [processIxFact, exceptBindOkIff, exceptPureOk] at h
    obtain ⟨a1, _, a2, _, a3, _, a4, _, a5, _, a6, _, hfs⟩ := h
    injection hfs with hfs0
    intro f hf
    rw [← hfs0] at hf
    simp only [List.mem_singleton] at hf
    rw [hf]
    rfl

/-- The fact-loop fold over a concatenation splits into two folds. -/
theorem foldIx_append (R : String → String → Except PyErr Concept)
    (C : String → Except PyErr Ctx) (U : String → Except PyErr XUnit)
    (l₁ l₂ : List IxFactElem) (acc : List XFact) :
    (l₁ ++ l₂).foldlM (ixbrlFoldBody R C U) acc =
      l₁.foldlM (ixbrlFoldBody R C U) acc >>= fun m =>
        l₂.foldlM (ixbrlFoldBody R C U) m := by
  induction l₁ generalizing acc with
  | nil => simp
  | cons e t ih =>
    simp only [List.cons_append, List.foldlM_cons]
    cases ixbrlFoldBody R C U acc e with
    | error err => simp [Bind.bind, Except.bind]
    | ok acc' => simp [Bind.bind, Except.bind, ih acc']

/-- A fold started from a nonempty accumulator is the fold from `[]` with
the accumulator prepended. -/
theorem foldIx_shift (R : String → String → Except PyErr Concept)
    (C : String → Except PyErr Ctx) (U : String → Except PyErr XUnit)
    (l : List IxFactElem) (acc : List XFact) :
    l.foldlM (ixbrlFoldBody R C U) acc =
      l.foldlM (ixbrlFoldBody R C U) [] >>= fun s => pure (acc ++ s) := by
  induction l generalizing acc with
  | nil => simp [Bind.bind, Except.bind, exceptPureOk]
  | cons e t ih =>
    simp only [List.foldlM_cons]
    cases hpe : processIxFact R C U e with
    | error err => simp [ixbrlFoldBody, hpe, Bind.bind, Except.bind]
    | ok fs =>
      have hbody : ∀ a, ixbrlFoldBody R C U a e = .ok (a ++ fs) := by
        intro a
        simp [ixbrlFoldBody, hpe, Bind.bind, Except.bind, exceptPureOk]
      rw [hbody acc, hbody []]
      simp only [Bind.bind, Except.bind, List.nil_append]
      rw [ih (acc ++ fs), ih fs]
      cases t.foldlM (ixbrlFoldBody R C U) [] with
      | error err => simp [Bind.bind, Except.bind]
      | ok s => simp [Bind.bind, Except.bind, exceptPureOk, List.append_assoc]

/-- Facts accumulated over elements of one tag all have that tag's kind. -/
theorem foldIx_kind (R : String → String → Except PyErr Concept)
    (C : String → Except PyErr Ctx) (U : String → Except PyErr XUnit)
    (t : IxTag) (b : Bool) (hb : b = (t == IxTag.nonFraction))
    (l : List IxFactElem) (hl : ∀ e ∈ l, e.tag = t)
    (acc r : List XFact) (hacc : ∀ f ∈ acc, isNumericFact f = b)
    (h : l.foldlM (ixbrlFoldBody R C U) acc = .ok r) :
    ∀ f ∈ r, isNumericFact f = b := by
  induction l generalizing acc with
  | nil =>
    simp only [List.foldlM_nil, exceptPureOk, Except.ok.injEq] at h
    rw [← h]
    exact hacc
  | cons e tl ih =>
    simp only [List.foldlM_cons, exceptBindOkIff] at h
    obtain ⟨acc', hstep, hrest⟩ := h
    simp only [ixbrlFoldBody, exceptBindOkIff, exceptPureOk, Except.ok.injEq] at hstep
    obtain ⟨fs, hfs, hacc'⟩ := hstep
    refine ih (fun x hx => hl x (List.mem_cons_of_mem _ hx)) acc' ?_ hrest
    rw [← hacc']
    intro f hf
    rcases List.mem_append.mp hf with hin | hin
    · exact hacc f hin
    · rw [processIxFact_kind R C U e fs hfs f hin, hl e (List.mem_cons_self _ _), hb]

/-- A successful fold extends its accumulator. -/
theorem foldIx_ok_prefix (R : String → String → Except PyErr Concept)
    (C : String → Except PyErr Ctx) (U : String → Except PyErr XUnit)
    (l : List IxFactElem) (acc r : List XFact)
    (h : l.foldlM (ixbrlFoldBody R C U) acc = .ok r) :
    ∃ s, r = acc ++ s := by
  rw [foldIx_shift] at h
  simp only [exceptBindOkIff, exceptPureOk, Except.ok.injEq] at h
  obtain ⟨s, _, hs⟩ := h
  exact ⟨s, hs.symm⟩

/-- Structural lemma about the two-pass loop: whenever the fact loop
completes, the fact list is the facts of the non-fraction elements (in
document order) followed by the facts of the non-numeric elements (in
document order).  Because `extractNonFractionValue` raises on every
element, the loop only completes when the non-fraction filter is empty, so
the numeric segment of any completed run is empty. -/
theorem ixbrlTwoPassStructure (R : String → String → Except PyErr Concept)
    (C : String → Except PyErr Ctx) (U : String → Except PyErr XUnit)
    (doc : List IxFactElem) (facts : List XFact)
    (h : parseIxbrlFacts R C U doc = .ok facts) :
    ∃ nums txts,
      facts = nums ++ txts ∧
      parseIxbrlFacts R C U (doc.filter (fun e => e.tag == IxTag.nonFraction)) =
        .ok nums ∧
      parseIxbrlFacts R C U (doc.filter (fun e => e.tag == IxTag.nonNumeric)) =
        .ok txts ∧
      (∀ f ∈ nums, isNumericFact f = true) ∧
      (∀ f ∈ txts, isNumericFact f = false) := by
  have hA : ∀ e ∈ doc.filter (fun e => e.tag == IxTag.nonFraction),
      e.tag = IxTag.nonFraction := by
    intro e he
    have := List.of_mem_filter he
    exact eq_of_beq this
  have hB : ∀ e ∈ doc.filter (fun e => e.tag == IxTag.nonNumeric),
      e.tag = IxTag.nonNumeric := by
    intro e he
    have := List.of_mem_filter he
    exact eq_of_beq this
  have hfilterA1 : (doc.filter (fun e => e.tag == IxTag.nonFraction)).filter
      (fun e => e.tag == IxTag.nonFraction) =
      doc.filter (fun e => e.tag == IxTag.nonFraction) := by
    rw [List.filter_eq_self]
    intro a ha
    exact (List.mem_filter.mp ha).2
  have hfilterA2 : (doc.filter (fun e => e.tag == IxTag.nonFraction)).filter
      (fun e => e.tag == IxTag.nonNumeric) = [] := by
    rw [List.filter_eq_nil_iff]
    intro a ha
    rw [hA a ha]
    simp
  have hfilterB1 : (doc.filter (fun e => e.tag == IxTag.nonNumeric)).filter
      (fun e => e.tag == IxTag.nonFraction) = [] := by
    rw [List.filter_eq_nil_iff]
    intro a ha
    rw [hB a ha]
    simp
  have hfilterB2 : (doc.filter (fun e => e.tag == IxTag.nonNumeric)).filter
      (fun e => e.tag == IxTag.nonNumeric) =
      doc.filter (fun e => e.tag == IxTag.nonNumeric) := by
    rw [List.filter_eq_self]
    intro a ha
    exact (List.mem_filter.mp ha).2
  rw [parseIxbrlFacts, foldIx_append] at h
  simp only [exceptBindOkIff] at h
  obtain ⟨m, hm, hrest⟩ := h
  obtain ⟨s, hs⟩ := foldIx_ok_prefix R C U _ m facts hrest
  have hsfold : (doc.filter (fun e => e.tag == IxTag.nonNumeric)).foldlM
      (ixbrlFoldBody R C U) [] = .ok s := by
    rw [foldIx_shift] at hrest
    simp only [exceptBindOkIff, exceptPureOk, Except.ok.injEq] at hrest
    obtain ⟨s', hs', heq⟩ := hrest
    have : s' = s := by
      have h2 : m ++ s' = m ++ s := heq.trans hs
      exact List.append_cancel_left h2
    rw [← this]
    exact hs'
  refine ⟨m, s, hs, ?_, ?_, ?_, ?_⟩
  · rw [parseIxbrlFacts, hfilterA1, hfilterA2, List.append_nil]
    exact hm
  · rw [parseIxbrlFacts, hfilterB1, hfilterB2, List.nil_append]
    exact hsfold
  · exact foldIx_kind R C U IxTag.nonFraction true rfl _ hA [] m (by simp) hm
  · exact foldIx_kind R C U IxTag.nonNumeric false rfl _ hB [] s (by simp) hsfold

/-- C3 (refuted by the source): `_extract_non_fraction_value` raises on
every call before its nil test can run.  Line 547 looks up the XML
attribute `ns_map`, which no element has (`KeyError('ns_map')`); and were
such an attribute present, its value would be a string, so the `['xsi']`
index would raise `TypeError`.  The claimed "NumericFact with value None,
no error" outcome is unreachable. -/
theorem c3_nil_extraction_always_raises (e : IxFactElem) :
    (e.nsMapAttr = none →
      extractNonFractionValue e = .error (.keyError "ns_map")) ∧
    (∀ s, e.nsMapAttr = some s →
      extractNonFractionValue e =
        .error (.typeError "string indices must be integers")) := by
  constructor
  · intro h
    simp [extractNonFractionValue, keyOrErr, h, Bind.bind, Except.bind]
  · intro s h
    simp [extractNonFractionValue, keyOrErr, h, pyStrIndexStr, Bind.bind,
      Except.bind]

/-! ### Concrete fixtures for the witnesses -/

/-- Demonstration concept resolver standing in for the external taxonomy
service. -/
def demoResolve : String → String → Except PyErr Concept :=
  fun p n => .ok ⟨p ++ ":" ++ n⟩

/-- Demonstration context table lookup. -/
def demoCtxLookup : String → Except PyErr Ctx :=
  fun cid => .ok (.instantContext cid "ent" ⟨2020, 1, 1⟩)

/-- Demonstration unit table lookup. -/
def demoUnitLookup : String → Except PyErr XUnit :=
  fun uid => .ok (.simpleUnit uid "iso4217:USD")

/-- An `ix:nonFraction` element as lxml hands it to the loop: no `ns_map`
attribute.  Whether the document also marks it `xsi:nil='true'` is
irrelevant, because extraction raises before the nil test. -/
def nfElem : IxFactElem :=
  { tag := .nonFraction, name := some "us-gaap:Assets", contextRef := some "c1",
    unitRef := some "u1", decimals := none, nsMapAttr := none, text := none,
    fmt := none, scaleAttr := none, signAttr := none, children := .nil }

/-- An `ix:nonNumeric` element appearing before the numeric element in
document order. -/
def txtElem : IxFactElem :=
  { tag := .nonNumeric, name := some "dei:Focus", contextRef := some "c1",
    unitRef := none, decimals := none, nsMapAttr := none, text := some "Q2",
    fmt := none, scaleAttr := none, signAttr := none, children := .nil }

/-- The text fact produced from `txtElem`. -/
def demoTextFact : XFact :=
  .textFact ⟨"dei:Focus"⟩ (.instantContext "c1" "ent" ⟨2020, 1, 1⟩) "Q2"

/-- Witness for C3: on the concrete non-fraction element the extraction,
and with it the whole fact loop, raises `KeyError('ns_map')` — no
`NumericFact` is ever emitted. -/
theorem c3_nil_extraction_always_raises_witness :
    extractNonFractionValue nfElem = .error (.keyError "ns_map") ∧
    parseIxbrlFacts demoResolve demoCtxLookup demoUnitLookup [nfElem] =
      .error (.keyError "ns_map") := by
  constructor
  · exact (c3_nil_extraction_always_raises nfElem).1 rfl
  · decide

/-- C8 (against the source): the two-pass structure of line 419 is real —
non-fraction elements are processed first — but every non-fraction element
makes the loop raise `KeyError('ns_map')` (line 547) before any fact list
is returned, so the claimed numerics-before-texts output is only ever
observable in the degenerate case of a document with no non-fraction
facts, whose returned list is the text facts alone. -/
theorem c8_two_pass_crash :
    parseIxbrlFacts demoResolve demoCtxLookup demoUnitLookup [txtElem, nfElem] =
      .error (.keyError "ns_map") ∧
    parseIxbrlFacts demoResolve demoCtxLookup demoUnitLookup [txtElem] =
      .ok [demoTextFact] := by
  constructor
  · decide
  · decide

/-! ### XBRL-mode fact extraction (`parse_xbrl` loop, instance.py 316–353) -/

/-- The pieces the `parse_xbrl` loop reads from one root child element.
`tagIsString` is false for comments and processing instructions, whose
lxml tag is not a string. -/
structure XbrlElem where
  tagIsString : Bool
  tag : String
  contextRef : Option String
  unitRef : Option String
  decimals : Option String
  text : Option String
  deriving DecidableEq, Repr

/-- Python `tag.split('}')` unpacked into exactly two names. -/
def splitOnBrace (tag : String) : Except PyErr (String × String) :=
  match pySplit tag '}' with
  | [a, b] => .ok (a, b)
  | _ => .error (.valueError "unpack")

/-- Shallow embedding of the per-element body of the `parse_xbrl` fact
loop: the four skip pre-checks, then concept/context resolution and the
numeric/text dispatch. -/
def processXbrlElem (R : String → String → Except PyErr Concept)
    (C : String → Except PyErr Ctx) (U : String → Except PyErr XUnit)
    (e : XbrlElem) : Except PyErr (List XFact) :=
  if e.tagIsString = false then .ok []
  else if strContains e.tag "context" || strContains e.tag "unit" ||
      strContains e.tag "schemaRef" then .ok []
  else
    match e.contextRef with
    | none => .ok []
    | some cref =>
      match e.text with
      | none => .ok []
      | some txt =>
        if (pyStrip txt).length = 0 then .ok []
        else do
          let pn ← splitOnBrace e.tag
          let ns1 : String := ⟨pn.1.data.filter (fun c => c ≠ '{')⟩
          let concept ← R ns1 pn.2
          let context ← C cref
          match e.unitRef with
          | some uref => do
            let unit ← U uref
            let dtext ← keyOrErr e.decimals "decimals"
            let dec ← parseDecimalsAttr dtext
            let v ← pyFloat txt
            pure [XFact.numericFact concept context (some v) unit dec]
          | none =>
            pure [XFact.textFact concept context (pyStrip txt)]

/-- One step of the `facts.append(...)` accumulation in `parse_xbrl`. -/
def xbrlFoldBody (R : String → String → Except PyErr Concept)
    (C : String → Except PyErr Ctx) (U : String → Except PyErr XUnit)
    (acc : List XFact) (e : XbrlElem) : Except PyErr (List XFact) := do
  let fs ← processXbrlElem R C U e
  pure (acc ++ fs)

/-- Shallow embedding of the `parse_xbrl` fact loop over the root's child
elements in document order. -/
def parseXbrlFacts (R : String → String → Except PyErr Concept)
    (C : String → Except PyErr Ctx) (U : String → Except PyErr XUnit)
    (elems : List XbrlElem) : Except PyErr (List XFact) :=
  elems.foldlM (xbrlFoldBody R C U) []

/-- C9: any root child whose tag contains `context`, `unit` or `schemaRef`
as a case-sensitive substring contributes nothing and is dropped from the
output, independently of its attributes and text. -/
theorem c9_substring_tag_skip (R : String → String → Except PyErr Concept)
    (C : String → Except PyErr Ctx) (U : String → Except PyErr XUnit)
    (e : XbrlElem)
    (h : strContains e.tag "context" = true ∨ strContains e.tag "unit" = true ∨
      strContains e.tag "schemaRef" = true) :
    processXbrlElem R C U e = .ok [] ∧
    ∀ pre post, parseXbrlFacts R C U (pre ++ e :: post) =
      parseXbrlFacts R C U (pre ++ post) := by
  have hskip : processXbrlElem R C U e = .ok [] := by
    rw [processXbrlElem]
    rcases Bool.eq_false_or_eq_true e.tagIsString with ht | ht
    · rw [if_neg (by rw [ht]; simp)]
      rcases h with h | h | h <;> rw [if_pos (by rw [h]; simp)]
    · rw [if_pos ht]
  refine ⟨hskip, ?_⟩
  have hgo : ∀ pre acc post, (pre ++ e :: post).foldlM (xbrlFoldBody R C U) acc =
      (pre ++ post).foldlM (xbrlFoldBody R C U) acc := by
    intro pre
    induction pre with
    | nil =>
      intro acc post
      simp only [List.nil_append, List.foldlM_cons]
      have hb : xbrlFoldBody R C U acc e = .ok acc := by
        simp [xbrlFoldBody, hskip, Bind.bind, Except.bind, exceptPureOk]
      rw [hb]
      simp [Bind.bind, Except.bind]
    | cons p t ih =>
      intro acc post
      simp only [List.cons_append, List.foldlM_cons]
      cases xbrlFoldBody R C U acc p with
      | error err => simp [Bind.bind, Except.bind]
      | ok acc' => simp [Bind.bind, Except.bind, ih acc']
  intro pre post
  exact hgo pre [] post

/-- A fact-like element whose concept tag happens to contain the lowercase
substring `unit`, with a context reference and non-empty text. -/
def unitTagElem : XbrlElem :=
  { tagIsString := true, tag := "{http://example.com/ns}myunitCount",
    contextRef := some "c1", unitRef := none, decimals := none,
    text := some "42" }

/-- Witness for C9: the `unit`-containing element carries a contextRef and
non-empty text, yet the parsed fact list is empty. -/
theorem c9_substring_tag_skip_witness :
    strContains unitTagElem.tag "unit" = true ∧
    unitTagElem.contextRef = some "c1" ∧
    unitTagElem.text = some "42" ∧
    parseXbrlFacts demoResolve demoCtxLookup demoUnitLookup [unitTagElem] =
      .ok [] := by
  refine ⟨by decide, rfl, rfl, ?_⟩
  have h := (c9_substring_tag_skip demoResolve demoCtxLookup demoUnitLookup
    unitTagElem (Or.inr (Or.inl (by decide)))).2 [] []
  simpa using h

end PyXbrl
